import Mathlib

/-!
Shallow embedding of the TrafficIQ route-comparison and traffic-derivation
services (`RouteService`, `TrafficService`, `GoogleMapsService`,
`SupabaseService`, `TogetherAIService`).

Conventions of the embedding:
* JS numbers are modelled as `ℚ` wherever the source only adds, subtracts,
  multiplies, divides, rounds and compares; the two haversine distance
  functions use `ℝ` because they are built from transcendental functions.
* `Math.round` is `round` (both round half toward positive infinity),
  `Math.floor` is `Int.floor`, `Math.min`/`Math.max` are `min`/`max`.
* The JS default idiom `x || d` is modelled by explicit falsiness: `0` for
  numbers and `""` for strings are falsy, as is a missing (`undefined`/`null`)
  value, modelled by `Option`.
* Each `Math.random()` draw is an explicit parameter in `[0, 1)`.
* External I/O (provider callbacks, geocoding, the database) is passed in as
  explicit data; fire-and-forget persistence calls do not affect any value
  returned to a caller and introduce no parameters.
-/

/-- The four ordered severity levels used across the system
(`'low' | 'moderate' | 'high' | 'severe'`). -/
inductive Severity
  | low
  | moderate
  | high
  | severe
  deriving DecidableEq, Repr

/-- The lowercase string value of a severity level, as the TypeScript string
union carries it at runtime. -/
def Severity.str : Severity → String
  | .low => "low"
  | .moderate => "moderate"
  | .high => "high"
  | .severe => "severe"

/-- The severity denoted by one of the four union strings. The TypeScript
read-back cast `record.traffic_level as 'low' | ...` is a runtime no-op; this
total parse inverts `Severity.str` on its range and is only ever applied
there (the `.low` default is never exercised by the theorems below). -/
def Severity.ofString : String → Severity
  | "moderate" => .moderate
  | "high" => .high
  | "severe" => .severe
  | _ => .low

/-- Capitalisation `severity.charAt(0).toUpperCase() + severity.slice(1)`,
precomputed on the four union values. -/
def Severity.capitalized : Severity → String
  | .low => "Low"
  | .moderate => "Moderate"
  | .high => "High"
  | .severe => "Severe"

/-- JS `s.startsWith(p)`, modelled on the character lists of the strings. -/
def jsStartsWith (s p : String) : Bool :=
  p.toList.isPrefixOf s.toList

/-- JS `x || d` for a number expression that may be missing: `undefined`
(`none`) and `0` are falsy and give the default. (`NaN`, the one other falsy
number, has no `ℚ` counterpart and is not modelled.) -/
def jsNumOr (x : Option ℚ) (d : ℚ) : ℚ :=
  match x with
  | none => d
  | some v => if v = 0 then d else v

/-- JS `s || d` for a string: the empty string is falsy. -/
def jsStrOr (s d : String) : String :=
  if s = "" then d else s

/-- JS `x || d` for a string expression that may be missing
(`undefined`/`null` and `""` are falsy). -/
def jsOptStrOr (x : Option String) (d : String) : String :=
  match x with
  | none => d
  | some s => jsStrOr s d

/-- The head element and minimum of a list of rationals (`none` on the empty
list): the reference notion of "minimum of the list" used to state the savings
property. -/
def listMinQ : List ℚ → Option ℚ
  | [] => none
  | x :: xs => some (xs.foldl min x)

/-- JS `xs.filter((_, index) => index !== i)`: the list without the element at
index `i`. -/
def exceptIdx {α : Type} (xs : List α) (i : ℕ) : List α :=
  (xs.enum.filter (fun p => p.1 != i)).map Prod.snd

/-- One leg of a provider route as `RouteService` consumes it:
`leg.distance.value` in metres, `leg.duration.value` in seconds, and the
optional traffic-aware `leg.duration_in_traffic.value` in seconds
(`google.maps.DirectionsLeg`). The turn-by-turn `steps` are display-only data
that no property below inspects, and are omitted from the embedding. -/
structure GLeg where
  distanceValue : ℚ
  durationValue : ℚ
  durationInTrafficValue : Option ℚ
  deriving DecidableEq, Repr

/-- A provider route alternative. The source reads `route.legs[0]` under the
comment "Assuming single leg for now"; the one consumed leg is embedded as a
field. `summary` is a plain JS string whose empty value plays the falsy role
in `route.summary || ...`. -/
structure GRoute where
  summary : String
  leg : GLeg
  overviewPolyline : String
  deriving DecidableEq, Repr

/-- The resolved value of `GoogleMapsService.calculateDirections`: the mapped
routes and the provider status string. -/
structure DirectionsResult where
  routes : List GRoute
  status : String
  deriving Repr

/-- What the provider's directions callback delivers: a status string and,
when routing succeeded, a payload of route alternatives (`result` is `null` on
failure). -/
structure DirCallback where
  status : String
  result : Option (List GRoute)
  deriving Repr

namespace GoogleMapsService

/-- GoogleMapsService.calculateDirections (src/src/services/navigationService.ts,
lines 334-468): resolves with the mapped `{routes, status}` only when the
callback status is `OK` and a result object is present; every other callback
outcome rejects with `Directions request failed: <status>`. The guards that
reject when the SDK is unavailable are folded into `sdkLoaded` (their two
reject messages differ from each other in the source; the message text of a
rejection is never observed by a caller, which catches the exception). -/
def calculateDirections (sdkLoaded : Bool) (cb : DirCallback) :
    Except String DirectionsResult :=
  if !sdkLoaded then .error "Google Maps not loaded"
  else
    match cb.result with
    | some payload =>
      if cb.status = "OK" then .ok { routes := payload, status := cb.status }
      else .error ("Directions request failed: " ++ cb.status)
    | none => .error ("Directions request failed: " ++ cb.status)

end GoogleMapsService

/-- A place search result, to the extent `RouteService` consumes it. -/
structure Place where
  name : String
  formattedAddress : String
  lat : ℚ
  lng : ℚ
  placeId : String
  deriving Repr

/-- A route request as `RouteService.calculateRoutes` receives it. The travel
mode and avoidance flags only shape the outgoing provider request and are
omitted; `userId` gates the fire-and-forget persistence step. -/
structure RouteRequest where
  originLat : ℚ
  originLng : ℚ
  destination : String
  userId : Option String
  deriving Repr

/-- A scored route, mirroring the `RouteResult` interface of
src/unnamed/part_003 (the display-only `steps` list is omitted, as in
`GLeg`). -/
structure RouteResult where
  id : String
  name : String
  distance : ℚ
  duration : ℚ
  durationWithTraffic : ℚ
  trafficDelay : ℚ
  trafficLevel : Severity
  description : String
  isRecommended : Bool
  savings : Option ℚ
  waypoints : Option (List String)
  polyline : Option String
  deriving DecidableEq, Repr

/-- The `status` discriminator of a `RouteResponse`. -/
inductive RStatus
  | success
  | error
  deriving DecidableEq, Repr

/-- The value `RouteService.calculateRoutes` returns to its caller. -/
structure RouteResponse where
  routes : List RouteResult
  status : RStatus
  message : Option String
  deriving Repr

/-- The provider-facing environment of one `calculateRoutesWithJSSDK` call:
the outcome of the destination place search, whether the maps SDK could be
loaded, and what the directions callback delivered. -/
structure ProviderEnv where
  placesOutcome : Except String (List Place)
  sdkLoaded : Bool
  dir : DirCallback
  deriving Repr

namespace RouteService

/-- RouteService.calculateTrafficLevel (src/unnamed/part_003, lines 215-222):
severity from the delay as a percentage of the base duration, against the
fixed bands 50 / 25 / 10. -/
def calculateTrafficLevel (trafficDelay baseDuration : ℚ) : Severity :=
  let delayPercentage := trafficDelay / baseDuration * 100
  if delayPercentage ≥ 50 then .severe
  else if delayPercentage ≥ 25 then .high
  else if delayPercentage ≥ 10 then .moderate
  else .low

/-- RouteService.getDirectionsErrorMessage (src/unnamed/part_003, lines
194-213): the fixed eight-entry status-to-message table. -/
def getDirectionsErrorMessage (status : String) : String :=
  match status with
  | "NOT_FOUND" =>
    "One or more locations could not be found. Please check your destination and try again."
  | "ZERO_RESULTS" =>
    "No route could be found between these locations. Try a different destination or travel mode."
  | "MAX_WAYPOINTS_EXCEEDED" =>
    "Too many waypoints in the request. Please simplify your route."
  | "INVALID_REQUEST" =>
    "Invalid route request. Please check your input and try again."
  | "OVER_QUERY_LIMIT" =>
    "Service temporarily unavailable due to high demand. Please try again in a moment."
  | "REQUEST_DENIED" =>
    "Route service access denied. Please contact support."
  | "UNKNOWN_ERROR" =>
    "An unknown error occurred. Please try again."
  | _ =>
    "Unable to calculate routes. Please try again."

/-- RouteService.generateRouteDescription (src/unnamed/part_003, lines
224-234). -/
def generateRouteDescription (route : GRoute) (trafficLevel : Severity) : String :=
  let summary := jsStrOr route.summary "Standard route"
  summary ++ " - " ++
    (match trafficLevel with
     | .severe => "Heavy congestion expected"
     | .high => "Moderate to heavy traffic"
     | .moderate => "Some traffic delays"
     | .low => "Light traffic conditions")

/-- RouteService.extractWaypoints (src/unnamed/part_003, lines 290-295):
split the summary on the literal " and ", drop empty pieces, keep at most 3. -/
def extractWaypoints (route : GRoute) : List String :=
  let summary := route.summary
  ((summary.splitOn " and ").filter (fun w => w.length > 0)).take 3

/-- The per-alternative conversion inside
RouteService.calculateRoutesWithJSSDK (src/unnamed/part_003, lines 119-152):
provider units to display units, delay, severity, the first-route
recommendation flag; `savings` starts out unset. -/
def mkRouteResult (index : ℕ) (route : GRoute) : RouteResult :=
  let leg := route.leg
  let distance := leg.distanceValue / 1609.34
  let duration : ℚ := ((round (leg.durationValue / 60) : ℤ) : ℚ)
  let durationWithTraffic : ℚ :=
    match leg.durationInTrafficValue with
    | some v => ((round (v / 60) : ℤ) : ℚ)
    | none => duration
  let trafficDelay := max 0 (durationWithTraffic - duration)
  let trafficLevel := calculateTrafficLevel trafficDelay duration
  let isRecommended := index == 0 && !(trafficLevel == Severity.severe)
  { id := "route-" ++ toString index,
    name := jsStrOr route.summary ("Route " ++ toString (index + 1)),
    distance := distance,
    duration := duration,
    durationWithTraffic := durationWithTraffic,
    trafficDelay := trafficDelay,
    trafficLevel := trafficLevel,
    description := generateRouteDescription route trafficLevel,
    isRecommended := isRecommended,
    savings := none,
    waypoints := some (extractWaypoints route),
    polyline := some route.overviewPolyline }

/-- The JS reduction
`otherRoutes.reduce((fastest, route) => route.durationWithTraffic < fastest.durationWithTraffic ? route : fastest)`:
no initial value, so the accumulator starts at the first element (`none` on an
empty list, where the JS call would throw; the call site guards against
that). -/
def pickFastest : List RouteResult → Option RouteResult
  | [] => none
  | r :: rs =>
    some (rs.foldl
      (fun fastest route =>
        if route.durationWithTraffic < fastest.durationWithTraffic then route
        else fastest)
      r)

/-- RouteService.calculateSavings (src/unnamed/part_003, lines 236-247). -/
def calculateSavings (routes : List RouteResult) (currentIndex : ℕ) : Option ℚ :=
  if routes.length ≤ 1 then none
  else
    match routes[currentIndex]? with
    | none => none
    | some currentRoute =>
      match pickFastest (exceptIdx routes currentIndex) with
      | none => none
      | some fastestOther =>
        let savings := fastestOther.durationWithTraffic - currentRoute.durationWithTraffic
        if savings > 0 then some ((round savings : ℤ) : ℚ) else none

/-- The two scoring passes of RouteService.calculateRoutesWithJSSDK over the
provider's alternatives: the per-route conversion (lines 119-152), then the
savings back-fill `routes.forEach((route, index) => { if (route.isRecommended)
route.savings = this.calculateSavings(routes, index); })` (lines 154-159).
The in-place mutation only writes `savings`, which `calculateSavings` never
reads, so the second pass reads the first pass's list. -/
def processRoutes (groutes : List GRoute) : List RouteResult :=
  let routes := List.mapIdx mkRouteResult groutes
  List.mapIdx
    (fun index route =>
      if route.isRecommended then
        { route with savings := calculateSavings routes index }
      else route)
    routes

/-- RouteService.calculateRoutesWithJSSDK (src/unnamed/part_003, lines
63-183), as a function of the provider environment: each guarded provider
step either proceeds or produces the catch-block's `{status: 'error'}`
response; a non-OK `directionsResult.status` after a successful await would
map through the eight-entry table (lines 110-116). The persistence step
(lines 162-169) swallows its errors and does not change the returned value,
so it does not appear. -/
def calculateRoutesWithJSSDK (request : RouteRequest) (env : ProviderEnv) :
    RouteResponse :=
  match env.placesOutcome with
  | .error _ =>
    { routes := [], status := .error,
      message := some "Unable to search for destination. Please check your internet connection and try again." }
  | .ok [] =>
    { routes := [], status := .error,
      message := some ("No results found for \"" ++ request.destination ++ "\". Please try a more specific location or check the spelling.") }
  | .ok (_ :: _) =>
    match GoogleMapsService.calculateDirections env.sdkLoaded env.dir with
    | .error _ =>
      { routes := [], status := .error,
        message := some "Unable to calculate routes. Please try again or check if the destination is reachable by car." }
    | .ok directionsResult =>
      if directionsResult.status ≠ "OK" then
        { routes := [], status := .error,
          message := some (getDirectionsErrorMessage directionsResult.status) }
      else
        { routes := processRoutes directionsResult.routes,
          status := .success, message := none }

end RouteService

/-- A `saved_routes` row, mirroring the `RouteRecord` interface of
src/unnamed/part_002 (field names as in the source; `id` is
database-assigned). -/
structure RouteRecord where
  id : Option String
  user_id : String
  origin_lat : ℚ
  origin_lng : ℚ
  destination : String
  destination_lat : ℚ
  destination_lng : ℚ
  route_name : String
  distance : ℚ
  duration : ℚ
  duration_with_traffic : ℚ
  traffic_delay : ℚ
  traffic_level : String
  description : String
  is_recommended : Bool
  savings : Option ℚ
  waypoints : Option (List String)
  polyline : Option String
  deriving Repr

namespace RouteService

/-- The per-route projection inside RouteService.saveRoutesToDatabase
(src/unnamed/part_003, lines 256-288): the object handed to
`SupabaseService.saveRoute`. `request.userId!` is a compile-time non-null
assertion (a runtime pass-through, modelled by `getD ""`);
`destinationPlace?.geometry?.location?.lat || 0` yields 0 exactly when the
chain is missing or the coordinate is 0. -/
def routeToRecord (request : RouteRequest) (destination : String)
    (destinationPlace : Option Place) (route : RouteResult) : RouteRecord :=
  { id := none,
    user_id := request.userId.getD "",
    origin_lat := request.originLat,
    origin_lng := request.originLng,
    destination := destination,
    destination_lat := jsNumOr (destinationPlace.map Place.lat) 0,
    destination_lng := jsNumOr (destinationPlace.map Place.lng) 0,
    route_name := route.name,
    distance := route.distance,
    duration := route.duration,
    duration_with_traffic := route.durationWithTraffic,
    traffic_delay := route.trafficDelay,
    traffic_level := route.trafficLevel.str,
    description := route.description,
    is_recommended := route.isRecommended,
    savings := route.savings,
    waypoints := route.waypoints,
    polyline := route.polyline }

/-- The per-record projection inside RouteService.getSavedRoutes
(src/unnamed/part_003, lines 309-331): a stored row read back as a
`RouteResult`. `route.id!` is again a runtime pass-through, and the
`as 'low' | ...` cast on `traffic_level` is the no-op modelled by
`Severity.ofString`. -/
def recordToRouteResult (record : RouteRecord) : RouteResult :=
  { id := record.id.getD "",
    name := record.route_name,
    distance := record.distance,
    duration := record.duration,
    durationWithTraffic := record.duration_with_traffic,
    trafficDelay := record.traffic_delay,
    trafficLevel := Severity.ofString record.traffic_level,
    description := record.description,
    isRecommended := record.is_recommended,
    savings := record.savings,
    waypoints := record.waypoints,
    polyline := record.polyline }

end RouteService

/-- A traffic condition, mirroring the `TrafficCondition` interface of
src/src/services/trafficService.ts. `timestamp` is the JS `Date` as epoch
milliseconds (`Date.prototype.getTime`). -/
structure TrafficCondition where
  id : String
  lat : ℚ
  lng : ℚ
  address : String
  severity : Severity
  speed : ℚ
  duration : ℚ
  confidence : ℚ
  timestamp : ℤ
  predictedDuration : ℚ
  affectedRoutes : List String
  cause : Option String
  description : Option String
  deriving DecidableEq, Repr

/-- One per-hour entry of a traffic forecast: `congestionLevel` and
`confidence` are integers by construction (`Math.round` / integer
arithmetic). -/
structure PredictionEntry where
  time : String
  congestionLevel : ℤ
  confidence : ℤ
  deriving DecidableEq, Repr

/-- The `TrafficPrediction` value of src/src/services/trafficService.ts, the
`factors` object flattened into four fields. -/
structure TrafficPrediction where
  timestamp : ℤ
  predictions : List PredictionEntry
  accuracy : ℚ
  weatherFactor : ℚ
  eventsFactor : ℚ
  historicalFactor : ℚ
  realTimeFactor : ℚ
  deriving Repr

/-- The `Math.random()` draws one iteration of the simulation loop may
consume, one field per purpose (each call is an independent uniform draw, so
which branch consumes which draw does not matter). The radial-offset draw is
not a field: the simulated positions feed only display strings and the
transcendental `cos`/`sin` offsets are abstracted into the per-index position
argument. -/
structure SimDraws where
  rSev : ℚ
  rSpeed : ℚ
  rDur : ℚ
  rPred : ℚ
  deriving DecidableEq, Repr

/-- All draws of one simulation iteration lie in `[0, 1)`. -/
def SimDraws.valid (d : SimDraws) : Prop :=
  0 ≤ d.rSev ∧ d.rSev < 1 ∧ 0 ≤ d.rSpeed ∧ d.rSpeed < 1 ∧
  0 ≤ d.rDur ∧ d.rDur < 1 ∧ 0 ≤ d.rPred ∧ d.rPred < 1

namespace TrafficService

/-- TrafficService.calculateSeverityFromDelay
(src/src/services/trafficService.ts, lines 345-352). -/
def calculateSeverityFromDelay (delay normalDuration : ℚ) : Severity :=
  let delayPercentage := delay / normalDuration * 100
  if delayPercentage ≥ 50 then .severe
  else if delayPercentage ≥ 25 then .high
  else if delayPercentage ≥ 10 then .moderate
  else .low

/-- The cache-acceptance filter inside
TrafficService.getCurrentTrafficConditions
(src/src/services/trafficService.ts, lines 84-90): keep an entry iff it is
less than 5 minutes old and its id carries the `real-traffic-` provenance
marker. `now` is `Date.now()` in milliseconds. -/
def recentRealFilter (now : ℤ) (conditions : List TrafficCondition) :
    List TrafficCondition :=
  conditions.filter
    (fun condition =>
      decide (now - condition.timestamp < 5 * 60 * 1000) &&
        jsStartsWith condition.id "real-traffic-")

/-- The cache short-circuit of getCurrentTrafficConditions (lines 83-96):
`some l` means the cached list `l` is returned immediately and the live fetch
is skipped; `none` means the pipeline proceeds to the fresh fetch. -/
def cacheResult (now : ℤ) (conditions : List TrafficCondition) :
    Option (List TrafficCondition) :=
  if conditions.length > 0 then
    let recentRealConditions := recentRealFilter now conditions
    if recentRealConditions.length > 0 then some recentRealConditions else none
  else none

/-- The fixed severity-to-percentage mapping of
TrafficService.calculateCurrentCongestionLevel. -/
def severityValue : Severity → ℚ
  | .low => 25
  | .moderate => 50
  | .high => 75
  | .severe => 90

/-- TrafficService.calculateCurrentCongestionLevel
(src/src/services/trafficService.ts, lines 420-429): 20 when no conditions,
else `Math.round` of the reduce-accumulated average of `severityValue`. -/
def calculateCurrentCongestionLevel (conditions : List TrafficCondition) : ℚ :=
  if conditions.length = 0 then 20
  else
    let avgSeverity :=
      (conditions.foldl (fun sum condition => sum + severityValue condition.severity) 0) /
        (conditions.length : ℚ)
    ((round avgSeverity : ℤ) : ℚ)

/-- TrafficService.getHourlyTrafficFactor (src/src/services/trafficService.ts,
lines 431-441): the fixed hour-of-day multiplier table;
`trafficPatterns[hour] || 0.5` defaults a missing key (every table value is
nonzero, hence truthy). -/
def getHourlyTrafficFactor (hour : ℕ) : ℚ :=
  match hour with
  | 0 => 0.2 | 1 => 0.15 | 2 => 0.1 | 3 => 0.1 | 4 => 0.15 | 5 => 0.3
  | 6 => 0.6 | 7 => 0.9 | 8 => 1.2 | 9 => 0.8 | 10 => 0.6 | 11 => 0.7
  | 12 => 0.8 | 13 => 0.7 | 14 => 0.6 | 15 => 0.7 | 16 => 0.9 | 17 => 1.3
  | 18 => 1.1 | 19 => 0.8 | 20 => 0.6 | 21 => 0.5 | 22 => 0.4 | 23 => 0.3
  | _ => 0.5

/-- TrafficService.formatHour (src/src/services/trafficService.ts, lines
443-447). -/
def formatHour (hour : ℕ) : String :=
  let period := if hour ≥ 12 then "PM" else "AM"
  let displayHour := if hour = 0 then 12 else if hour > 12 then hour - 12 else hour
  toString displayHour ++ " " ++ period

/-- TrafficService.generateRealTimePredictions
(src/src/services/trafficService.ts, lines 383-418): 12 hourly entries, each
the current congestion level scaled by the hour factor, rounded and clamped,
with linearly decaying confidence. `now` is the creation time, `currentHour`
the value of `new Date().getHours()`, `accuracyDraw` the `Math.random()` of
the accuracy band. -/
def generateRealTimePredictions (now : ℤ) (currentHour : ℕ) (accuracyDraw : ℚ)
    (currentConditions : List TrafficCondition) : TrafficPrediction :=
  let predictions := (List.range 12).map
    (fun i =>
      let hour := (currentHour + i) % 24
      let baseCongestion := calculateCurrentCongestionLevel currentConditions
      let hourlyFactor := getHourlyTrafficFactor hour
      let congestionLevel := round (baseCongestion * hourlyFactor)
      { time := formatHour hour,
        congestionLevel := min 100 (max 0 congestionLevel),
        confidence := max 60 (95 - (i : ℤ) * 3) : PredictionEntry })
  { timestamp := now,
    predictions := predictions,
    accuracy := 85 + accuracyDraw * 10,
    weatherFactor := 15,
    eventsFactor := 10,
    historicalFactor := 25,
    realTimeFactor := 50 }

/-- One iteration of the simulation loop in
TrafficService.generateLocationAwareSimulation
(src/src/services/trafficService.ts, lines 517-576): severity, speed and
cause from the fixed hour-of-day table, a `simulation-`-prefixed identifier
and fixed confidence 70. The position (`conditionLat`/`conditionLng`) and the
reverse-geocoded `geoAddress` are display data passed in (the
`Near <city> (lat, lng)` fallback's float formatting of the coordinates is
elided from the fallback string). -/
def simulatedCondition (currentHour : ℕ) (cityName : String) (now : ℤ)
    (i : ℕ) (conditionLat conditionLng : ℚ) (geoAddress : Option String)
    (d : SimDraws) : TrafficCondition :=
  let sevSpeedCause : Severity × ℚ × String :=
    if 7 ≤ currentHour ∧ currentHour ≤ 9 then
      (if d.rSev > 0.5 then Severity.high else Severity.moderate,
       ((Int.floor (d.rSpeed * 20) + 15 : ℤ) : ℚ),
       "Morning rush hour traffic")
    else if 17 ≤ currentHour ∧ currentHour ≤ 19 then
      (if d.rSev > 0.3 then Severity.high else Severity.severe,
       ((Int.floor (d.rSpeed * 15) + 10 : ℤ) : ℚ),
       "Evening rush hour congestion")
    else if 22 ≤ currentHour ∨ currentHour ≤ 5 then
      (Severity.low,
       ((Int.floor (d.rSpeed * 20) + 45 : ℤ) : ℚ),
       "Light traffic")
    else
      (if d.rSev > 0.7 then Severity.moderate else Severity.low,
       ((Int.floor (d.rSpeed * 25) + 30 : ℤ) : ℚ),
       "Normal traffic flow")
  let severity := sevSpeedCause.1
  let speed := sevSpeedCause.2.1
  let cause := sevSpeedCause.2.2
  let duration : ℚ := ((Int.floor (d.rDur * 20) + 10 : ℤ) : ℚ)
  { id := "simulation-" ++ (toString now ++ "-" ++ toString i),
    lat := conditionLat,
    lng := conditionLng,
    address := jsOptStrOr geoAddress ("Near " ++ cityName),
    severity := severity,
    speed := speed,
    duration := duration,
    confidence := 70,
    timestamp := now,
    predictedDuration := duration + ((Int.floor (d.rPred * 5) : ℤ) : ℚ),
    affectedRoutes := ["Routes near " ++ cityName, "Local roads"],
    cause := some cause,
    description := some ("⚠️ Simulated: " ++ severity.capitalized ++
      " conditions near " ++ cityName ++ " - " ++ cause) }

/-- TrafficService.generateLocationAwareSimulation
(src/src/services/trafficService.ts, lines 503-585): 2-4 synthetic conditions
(`Math.floor(Math.random() * 3) + 2` of them), one `simulatedCondition` per
loop index. `cityName` is the first comma-piece of the reverse-geocoded
centre (or "Your Area"); `positions` and `geo` supply each iteration's
offset point and reverse-geocoded address. -/
def generateLocationAwareSimulation (currentHour : ℕ) (now : ℤ)
    (cityName : String) (positions : ℕ → ℚ × ℚ) (geo : ℕ → Option String)
    (numDraw : ℚ) (draws : ℕ → SimDraws) : List TrafficCondition :=
  let numConditions := (Int.floor (numDraw * 3)).toNat + 2
  (List.range numConditions).map
    (fun i =>
      simulatedCondition currentHour cityName now i (positions i).1
        (positions i).2 (geo i) (draws i))

end TrafficService

/-- JS `Math.atan2(y, x)`: the quadrant-aware arctangent both haversine
implementations call. -/
noncomputable def jsAtan2 (y x : ℝ) : ℝ :=
  if 0 < x then Real.arctan (y / x)
  else if x < 0 ∧ 0 ≤ y then Real.arctan (y / x) + Real.pi
  else if x < 0 ∧ y < 0 then Real.arctan (y / x) - Real.pi
  else if x = 0 ∧ 0 < y then Real.pi / 2
  else if x = 0 ∧ y < 0 then -(Real.pi / 2)
  else 0

namespace TrafficService

/-- TrafficService.calculateDistance (src/src/services/trafficService.ts,
lines 334-343): haversine great-circle distance with Earth radius 6371
(kilometres). -/
noncomputable def calculateDistance (lat1 lng1 lat2 lng2 : ℝ) : ℝ :=
  let R : ℝ := 6371
  let dLat := (lat2 - lat1) * Real.pi / 180
  let dLng := (lng2 - lng1) * Real.pi / 180
  let a := Real.sin (dLat / 2) * Real.sin (dLat / 2) +
    Real.cos (lat1 * Real.pi / 180) * Real.cos (lat2 * Real.pi / 180) *
      Real.sin (dLng / 2) * Real.sin (dLng / 2)
  let c := 2 * jsAtan2 (Real.sqrt a) (Real.sqrt (1 - a))
  R * c

/-- The in-radius test of TrafficService.findNearbyPlaces
(src/src/services/trafficService.ts, lines 301-307): a candidate place passes
iff its kilometre haversine distance from the centre is at most the `radius`
argument of `getCurrentTrafficConditions`. -/
def nearbyPlaceWithinRadius (centerLat centerLng placeLat placeLng radius : ℝ) :
    Prop :=
  calculateDistance centerLat centerLng placeLat placeLng ≤ radius

end TrafficService

namespace SupabaseService

/-- SupabaseService.toRadians (src/unnamed/part_002, lines 268-270). -/
noncomputable def toRadians (degrees : ℝ) : ℝ :=
  degrees * (Real.pi / 180)

/-- SupabaseService.calculateDistance (src/unnamed/part_002, lines 256-266):
haversine great-circle distance with Earth radius 3959 (miles). -/
noncomputable def calculateDistance (lat1 lng1 lat2 lng2 : ℝ) : ℝ :=
  let R : ℝ := 3959
  let dLat := toRadians (lat2 - lat1)
  let dLng := toRadians (lng2 - lng1)
  let a := Real.sin (dLat / 2) * Real.sin (dLat / 2) +
    Real.cos (toRadians lat1) * Real.cos (toRadians lat2) *
      Real.sin (dLng / 2) * Real.sin (dLng / 2)
  let c := 2 * jsAtan2 (Real.sqrt a) (Real.sqrt (1 - a))
  R * c

/-- The distance filter of SupabaseService.getTrafficConditions
(src/unnamed/part_002, lines 117-126): a cached record passes iff its mile
haversine distance from the centre is at most the same `radius` argument. -/
def cachedRecordWithinRadius (centerLat centerLng recLat recLng radius : ℝ) :
    Prop :=
  calculateDistance centerLat centerLng recLat recLng ≤ radius

end SupabaseService

/-- A parsed LLM analysis object as TogetherAIService.validateAndFormatResponse
receives it (src/unnamed/part_001): arbitrary JSON, so every field may be
missing; `recommendations` is `none` when the value fails `Array.isArray`. -/
structure AnalysisPayload where
  severity : Option String
  confidence : Option ℚ
  summary : Option String
  recommendations : Option (List String)
  predictedCongestion : Option ℚ
  bestTimeToTravel : Option String
  alternativeRoutesSuggestion : Option String
  estimatedDelay : Option ℚ
  deriving Repr

/-- The `AITrafficInsight` value of src/unnamed/part_001. The source's
`severity` field is typed as the four-value union but `validateAndFormatResponse`
passes any truthy string through, so it is a plain string here. -/
structure AITrafficInsight where
  severity : String
  confidence : ℚ
  summary : String
  recommendations : List String
  predictedCongestion : ℚ
  bestTimeToTravel : String
  alternativeRoutesSuggestion : String
  estimatedDelay : ℚ
  deriving DecidableEq, Repr

namespace TogetherAIService

/-- TogetherAIService.validateAndFormatResponse (src/unnamed/part_001, lines
229-240): per-field `|| default`, then clamps on the three numeric fields. -/
def validateAndFormatResponse (analysis : AnalysisPayload) : AITrafficInsight :=
  { severity := jsOptStrOr analysis.severity "moderate",
    confidence := min (max (jsNumOr analysis.confidence 0.7) 0) 1,
    summary := jsOptStrOr analysis.summary "Traffic analysis completed",
    recommendations := analysis.recommendations.getD ["Check traffic before traveling"],
    predictedCongestion := min (max (jsNumOr analysis.predictedCongestion 50) 0) 100,
    bestTimeToTravel := jsOptStrOr analysis.bestTimeToTravel "Now",
    alternativeRoutesSuggestion :=
      jsOptStrOr analysis.alternativeRoutesSuggestion "Consider alternative routes",
    estimatedDelay := min (max (jsNumOr analysis.estimatedDelay 0) 0) 60 }

end TogetherAIService

/-- The forecast-entry specification for claim C6, written from the claim's
words with the one amendment the code forces: the base is the ROUNDED
unweighted severity average (baseline 20 when there are no conditions), the
entry congestion is `round(base * factor((hour + i) mod 24))` clamped to
`[0, 100]`, and the confidence is `max(60, 95 - 3 i)`. -/
def specForecastEntry (currentHour : ℕ) (conditions : List TrafficCondition)
    (i : ℕ) : PredictionEntry :=
  let hour := (currentHour + i) % 24
  let base : ℚ :=
    if conditions.length = 0 then 20
    else ((round
      ((conditions.map (fun c => TrafficService.severityValue c.severity)).sum /
        (conditions.length : ℚ)) : ℤ) : ℚ)
  { time := TrafficService.formatHour hour,
    congestionLevel :=
      min 100 (max 0 (round (base * TrafficService.getHourlyTrafficFactor hour))),
    confidence := max 60 (95 - (i : ℤ) * 3) }

/-- Three provider alternatives whose traffic-aware durations are 30, 25 and
40 minutes, none delayed: the spec's concrete savings regression batch. -/
def demoGRoutes : List GRoute :=
  [ { summary := "I-10 W",
      leg := { distanceValue := 16093.4, durationValue := 1800,
               durationInTrafficValue := some 1800 },
      overviewPolyline := "p0" },
    { summary := "US-90",
      leg := { distanceValue := 16093.4, durationValue := 1500,
               durationInTrafficValue := some 1500 },
      overviewPolyline := "p1" },
    { summary := "Loop 1604",
      leg := { distanceValue := 16093.4, durationValue := 2400,
               durationInTrafficValue := some 2400 },
      overviewPolyline := "p2" } ]

/-- A cached traffic condition four minutes older than `now`, with real
provenance. -/
def fourMinuteRealCondition (now : ℤ) : TrafficCondition :=
  { id := "real-traffic-123", lat := 30, lng := -97, address := "Main St",
    severity := .moderate, speed := 25, duration := 12, confidence := 95,
    timestamp := now - 4 * 60 * 1000, predictedDuration := 13,
    affectedRoutes := ["Main St"], cause := none, description := none }

/-- A cached traffic condition four minutes older than `now`, with simulation
provenance. -/
def fourMinuteSimCondition (now : ℤ) : TrafficCondition :=
  { id := "simulation-456", lat := 30, lng := -97, address := "Oak Ave",
    severity := .low, speed := 50, duration := 8, confidence := 70,
    timestamp := now - 4 * 60 * 1000, predictedDuration := 9,
    affectedRoutes := ["Oak Ave"], cause := none, description := none }

/-- A current condition of severity `low`, for the C6 counterexample. -/
def demoLowCondition : TrafficCondition :=
  { id := "real-traffic-1", lat := 30, lng := -97, address := "Elm St",
    severity := .low, speed := 45, duration := 10, confidence := 95,
    timestamp := 0, predictedDuration := 10,
    affectedRoutes := ["Elm St"], cause := none, description := none }

/-- A current condition of severity `moderate`, for the C6 counterexample. -/
def demoModerateCondition : TrafficCondition :=
  { id := "real-traffic-2", lat := 30, lng := -97, address := "Pine St",
    severity := .moderate, speed := 30, duration := 14, confidence := 95,
    timestamp := 0, predictedDuration := 15,
    affectedRoutes := ["Pine St"], cause := none, description := none }

/-- A resolved destination place. -/
def demoPlace : Place :=
  { name := "Airport", formattedAddress := "1 Airport Blvd", lat := 30,
    lng := -97, placeId := "pl1" }

/-- A plain route request. -/
def demoRequest : RouteRequest :=
  { originLat := 30, originLng := -97, destination := "airport",
    userId := none }

/-- A provider environment whose place search succeeds and whose directions
callback reports `ZERO_RESULTS` with no result payload. -/
def zeroResultsEnv : ProviderEnv :=
  { placesOutcome := .ok [demoPlace], sdkLoaded := true,
    dir := { status := "ZERO_RESULTS", result := none } }

/-- A valid simulation draw record with every draw one half. -/
def demoDraws : SimDraws :=
  { rSev := 1/2, rSpeed := 1/2, rDur := 1/2, rPred := 1/2 }

/-- A throwaway route used only as the default of `List.headD`. -/
def defaultRouteResult : RouteResult :=
  RouteService.mkRouteResult 0
    { summary := "",
      leg := { distanceValue := 0, durationValue := 0,
               durationInTrafficValue := none },
      overviewPolyline := "" }

/-- The first scored route of the demo batch. -/
def demoFirstRoute : RouteResult :=
  (RouteService.processRoutes demoGRoutes).headD defaultRouteResult

/-! The theorems. Shared helper lemmas come first, then one theorem per
claim (with a closed witness or counterexample where the claim calls for
one). -/

/-- C1: the severity classification of the Route Comparison Service
(RouteService.calculateTrafficLevel) and of the Traffic Derivation Pipeline
(TrafficService.calculateSeverityFromDelay) are extensionally equal, and for
delay `d ≥ 0` over base duration `b > 0` both classify `severe` iff
`(d/b)*100 ≥ 50`, `high` iff it lies in `[25, 50)`, `moderate` iff it lies in
`[10, 25)`, and `low` otherwise; in particular d=12,b=20 is severe, d=4,b=20
moderate and d=1,b=20 low. -/
theorem C1_severity_classification (d b : ℚ) (hd : 0 ≤ d) (hb : 0 < b) :
    RouteService.calculateTrafficLevel d b = TrafficService.calculateSeverityFromDelay d b
    ∧ (TrafficService.calculateSeverityFromDelay d b = .severe ↔ 50 ≤ d / b * 100)
    ∧ (TrafficService.calculateSeverityFromDelay d b = .high ↔
        25 ≤ d / b * 100 ∧ d / b * 100 < 50)
    ∧ (TrafficService.calculateSeverityFromDelay d b = .moderate ↔
        10 ≤ d / b * 100 ∧ d / b * 100 < 25)
    ∧ (TrafficService.calculateSeverityFromDelay d b = .low ↔ d / b * 100 < 10)
    ∧ RouteService.calculateTrafficLevel 12 20 = .severe
    ∧ RouteService.calculateTrafficLevel 4 20 = .moderate
    ∧ RouteService.calculateTrafficLevel 1 20 = .low := by
  refine ⟨rfl, ?_, ?_, ?_, ?_, ?_, ?_, ?_⟩
  · simp only [TrafficService.calculateSeverityFromDelay]
    split_ifs with h1 h2 h3 <;> simp_all <;> (try constructor) <;> (try intro h) <;> linarith
  · simp only [TrafficService.calculateSeverityFromDelay]
    split_ifs with h1 h2 h3 <;> simp_all <;> (try constructor) <;> (try intro h) <;> linarith
  · simp only [TrafficService.calculateSeverityFromDelay]
    split_ifs with h1 h2 h3 <;> simp_all <;> (try constructor) <;> (try intro h) <;> linarith
  · simp only [TrafficService.calculateSeverityFromDelay]
    split_ifs with h1 h2 h3 <;> simp_all <;> (try constructor) <;> (try intro h) <;> linarith
  · norm_num [RouteService.calculateTrafficLevel]
  · norm_num [RouteService.calculateTrafficLevel]
  · norm_num [RouteService.calculateTrafficLevel]

/-- Witness for C1 at the spec's sample point d = 12, b = 20. -/
theorem C1_severity_classification_witness :
    (0 : ℚ) ≤ 12 ∧ (0 : ℚ) < 20 ∧
      RouteService.calculateTrafficLevel 12 20
        = TrafficService.calculateSeverityFromDelay 12 20 :=
  ⟨by norm_num, by norm_num,
    (C1_severity_classification 12 20 (by norm_num) (by norm_num)).1⟩

/-- C8: storing a RouteResult as a RouteRecord (the saveRoutesToDatabase
projection) and reading the record back (the getSavedRoutes projection)
reproduces distance, duration, durationWithTraffic, trafficLevel and
waypoints unchanged. -/
theorem C8_route_record_roundtrip (request : RouteRequest) (dest : String)
    (place : Option Place) (route : RouteResult) :
    (RouteService.recordToRouteResult
        (RouteService.routeToRecord request dest place route)).distance
      = route.distance
    ∧ (RouteService.recordToRouteResult
        (RouteService.routeToRecord request dest place route)).duration
      = route.duration
    ∧ (RouteService.recordToRouteResult
        (RouteService.routeToRecord request dest place route)).durationWithTraffic
      = route.durationWithTraffic
    ∧ (RouteService.recordToRouteResult
        (RouteService.routeToRecord request dest place route)).trafficLevel
      = route.trafficLevel
    ∧ (RouteService.recordToRouteResult
        (RouteService.routeToRecord request dest place route)).waypoints
      = route.waypoints := by
  refine ⟨rfl, rfl, rfl, ?_, rfl⟩
  show Severity.ofString route.trafficLevel.str = route.trafficLevel
  cases route.trafficLevel <;> rfl

/-- C9: the Traffic Derivation Pipeline's haversine (Earth radius 6371,
kilometres) is exactly 6371/3959 times the Persistence Client's haversine
(Earth radius 3959, miles) on every pair of points; consequently, for the one
`radius` argument getCurrentTrafficConditions passes to both filters, the
nearby-place filter accepts a point iff its mile distance is at most
`radius * 3959/6371`, while the cache filter accepts iff the mile distance is
at most `radius` — two different geographic areas for the same number. -/
theorem C9_haversine_unit_mismatch (lat1 lng1 lat2 lng2 radius : ℝ) :
    TrafficService.calculateDistance lat1 lng1 lat2 lng2
      = (6371 / 3959) * SupabaseService.calculateDistance lat1 lng1 lat2 lng2
    ∧ (TrafficService.nearbyPlaceWithinRadius lat1 lng1 lat2 lng2 radius ↔
        SupabaseService.calculateDistance lat1 lng1 lat2 lng2
          ≤ radius * (3959 / 6371))
    ∧ (SupabaseService.cachedRecordWithinRadius lat1 lng1 lat2 lng2 radius ↔
        SupabaseService.calculateDistance lat1 lng1 lat2 lng2 ≤ radius) := by
  have hrad : ∀ x : ℝ, x * Real.pi / 180 = SupabaseService.toRadians x := by
    intro x
    simp only [SupabaseService.toRadians]
    ring
  have hmain : TrafficService.calculateDistance lat1 lng1 lat2 lng2
      = (6371 / 3959) * SupabaseService.calculateDistance lat1 lng1 lat2 lng2 := by
    simp only [TrafficService.calculateDistance, SupabaseService.calculateDistance,
      hrad]
    ring
  refine ⟨hmain, ?_, Iff.rfl⟩
  unfold TrafficService.nearbyPlaceWithinRadius
  rw [hmain]
  constructor <;> intro h <;> nlinarith

/-- C10: validateAndFormatResponse treats the in-range value 0 as missing for
predictedCongestion (default 50) and confidence (default 0.7) but preserves
estimatedDelay = 0, and always clamps confidence to [0,1],
predictedCongestion to [0,100] and estimatedDelay to [0,60]. -/
theorem C10_validate_falsy_defaults :
    (∀ a : AnalysisPayload, a.predictedCongestion = some 0 →
      (TogetherAIService.validateAndFormatResponse a).predictedCongestion = 50)
    ∧ (∀ a : AnalysisPayload, a.confidence = some 0 →
      (TogetherAIService.validateAndFormatResponse a).confidence = 0.7)
    ∧ (∀ a : AnalysisPayload, a.estimatedDelay = some 0 →
      (TogetherAIService.validateAndFormatResponse a).estimatedDelay = 0)
    ∧ ∀ a : AnalysisPayload,
        0 ≤ (TogetherAIService.validateAndFormatResponse a).confidence
        ∧ (TogetherAIService.validateAndFormatResponse a).confidence ≤ 1
        ∧ 0 ≤ (TogetherAIService.validateAndFormatResponse a).predictedCongestion
        ∧ (TogetherAIService.validateAndFormatResponse a).predictedCongestion ≤ 100
        ∧ 0 ≤ (TogetherAIService.validateAndFormatResponse a).estimatedDelay
        ∧ (TogetherAIService.validateAndFormatResponse a).estimatedDelay ≤ 60 := by
  refine ⟨?_, ?_, ?_, ?_⟩
  · intro a ha
    simp [TogetherAIService.validateAndFormatResponse, jsNumOr, ha]
    norm_num
  · intro a ha
    simp [TogetherAIService.validateAndFormatResponse, jsNumOr, ha]
    norm_num
  · intro a ha
    simp [TogetherAIService.validateAndFormatResponse, jsNumOr, ha]
  · intro a
    refine ⟨le_min (le_max_right _ _) (by norm_num), min_le_right _ _,
      le_min (le_max_right _ _) (by norm_num), min_le_right _ _,
      le_min (le_max_right _ _) (by norm_num), min_le_right _ _⟩

/-- C4: the cache filter of getCurrentTrafficConditions keeps an entry iff it
is both less than 5 minutes old and `real-traffic-`-prefixed; a cache hit
returns exactly the filtered entries and the live fetch is skipped iff at
least one survives; a 4-minute-old `real-traffic-123` entry is accepted while
a 4-minute-old `simulation-456` entry is rejected (triggering the fresh
fetch). -/
theorem C4_cache_filter (now : ℤ) (conditions : List TrafficCondition) :
    (∀ c, c ∈ TrafficService.recentRealFilter now conditions ↔
        (c ∈ conditions ∧ now - c.timestamp < 5 * 60 * 1000 ∧
          jsStartsWith c.id "real-traffic-" = true))
    ∧ (∀ l, TrafficService.cacheResult now conditions = some l →
        l = TrafficService.recentRealFilter now conditions ∧ l ≠ [])
    ∧ (TrafficService.cacheResult now conditions = none ↔
        TrafficService.recentRealFilter now conditions = [])
    ∧ TrafficService.recentRealFilter now
        [fourMinuteRealCondition now, fourMinuteSimCondition now]
      = [fourMinuteRealCondition now]
    ∧ TrafficService.cacheResult now [fourMinuteSimCondition now] = none := by
  have hreal : jsStartsWith "real-traffic-123" "real-traffic-" = true := by decide
  have hsim : jsStartsWith "simulation-456" "real-traffic-" = false := by decide
  have hage : ∀ m : ℤ, m - (m - 4 * 60 * 1000) < 5 * 60 * 1000 := by omega
  refine ⟨?_, ?_, ?_, ?_, ?_⟩
  · intro c
    simp [TrafficService.recentRealFilter, List.mem_filter, and_assoc]
  · intro l h
    simp only [TrafficService.cacheResult] at h
    split_ifs at h with h1 h2
    · injection h with h3
      refine ⟨h3.symm, ?_⟩
      intro hnil
      rw [h3, hnil] at h2
      simp at h2
  · simp only [TrafficService.cacheResult]
    split_ifs with h1 h2
    · constructor
      · intro h
        simp at h
      · intro h
        rw [h] at h2
        simp at h2
    · constructor
      · intro _
        exact List.length_eq_zero.mp (by omega)
      · intro _
        rfl
    · have hnil : conditions = [] := List.length_eq_zero.mp (by omega)
      subst hnil
      simp [TrafficService.recentRealFilter]
  · simp [TrafficService.recentRealFilter, List.filter,
      fourMinuteRealCondition, fourMinuteSimCondition, hreal, hsim, hage now]
  · simp [TrafficService.cacheResult, TrafficService.recentRealFilter,
      List.filter, fourMinuteSimCondition, hsim]

/-- C2 counterexample: with a successful place search and a directions
callback reporting `ZERO_RESULTS`, calculateRoutesWithJSSDK returns the
catch-block's fixed message, not the eight-entry table's `ZERO_RESULTS`
message that the claim requires (the SDK wrapper rejects on every non-OK
status, so the table is never consulted on this path). -/
theorem C2_counterexample :
    RouteService.calculateRoutesWithJSSDK demoRequest zeroResultsEnv
      = { routes := [], status := .error,
          message := some "Unable to calculate routes. Please try again or check if the destination is reachable by car." }
    ∧ "Unable to calculate routes. Please try again or check if the destination is reachable by car."
        ≠ RouteService.getDirectionsErrorMessage "ZERO_RESULTS" := by
  constructor
  · rfl
  · decide

/-- C2 (amended): for every directions request whose provider status is not
`OK` (after a successful, non-empty place search), calculateRoutes returns an
empty routes array with status `error` and the one fixed directions-failure
message of the catch block — the SDK wrapper rejects on non-OK status before
the status→message table can be consulted — and no exception reaches the
caller. -/
theorem C2_nonOK_directions_response (request : RouteRequest)
    (env : ProviderEnv) (p : Place) (rest : List Place)
    (hp : env.placesOutcome = .ok (p :: rest))
    (hs : env.dir.status ≠ "OK") :
    RouteService.calculateRoutesWithJSSDK request env
      = { routes := [], status := .error,
          message := some "Unable to calculate routes. Please try again or check if the destination is reachable by car." } := by
  unfold RouteService.calculateRoutesWithJSSDK
  rw [hp]
  unfold GoogleMapsService.calculateDirections
  cases hsdk : env.sdkLoaded
  · rfl
  · cases hres : env.dir.result
    · rfl
    · simp [hs]

/-- Witness for C2's amended theorem at the concrete ZERO_RESULTS
environment. -/
theorem C2_nonOK_directions_response_witness :
    zeroResultsEnv.placesOutcome = .ok [demoPlace]
    ∧ zeroResultsEnv.dir.status ≠ "OK"
    ∧ RouteService.calculateRoutesWithJSSDK demoRequest zeroResultsEnv
      = { routes := [], status := .error,
          message := some "Unable to calculate routes. Please try again or check if the destination is reachable by car." } :=
  ⟨rfl, by decide,
    C2_nonOK_directions_response demoRequest zeroResultsEnv demoPlace []
      rfl (by decide)⟩

/-- C6 counterexample: with current conditions of severities low and moderate
(severity values 25 and 50, unweighted average 37.5) at starting hour 8
(factor 1.2), the code's first forecast entry has congestion
round(round(37.5) * 1.2) = round(45.6) = 46, while the claim's formula
round(37.5 * 1.2) = 45: the code rounds the average before scaling. -/
theorem C6_counterexample :
    ((TrafficService.generateRealTimePredictions 0 8 0
        [demoLowCondition, demoModerateCondition]).predictions.map
      PredictionEntry.congestionLevel).head? = some 46
    ∧ min 100 (max 0 (round ((((25 : ℚ) + 50) / 2) *
        TrafficService.getHourlyTrafficFactor 8))) = 45
    ∧ (46 : ℤ) ≠ 45 := by
  have hrange : List.range 12 = [0, 1, 2, 3, 4, 5, 6, 7, 8, 9, 10, 11] := by
    decide
  refine ⟨?_, ?_, by decide⟩
  · simp only [TrafficService.generateRealTimePredictions, hrange,
      List.map_cons, List.head?_cons,
      TrafficService.calculateCurrentCongestionLevel,
      TrafficService.getHourlyTrafficFactor, demoLowCondition,
      demoModerateCondition, TrafficService.severityValue]
    norm_num [round_eq]
  · norm_num [TrafficService.getHourlyTrafficFactor, round_eq]

/-- C6 (amended): every forecast of generateRealTimePredictions has exactly
12 entries, entry i being the specification entry whose base is the ROUNDED
unweighted severity average (low=25, moderate=50, high=75, severe=90;
baseline 20 when no conditions), scaled by the fixed hour factor of
(hour + i) mod 24, rounded and clamped to [0, 100], with confidence
max(60, 95 - 3 i); the factor table has minimum 0.1 (attained at hour 3) and
maximum 1.3 (attained at hour 17). -/
theorem C6_forecast_entries (now : ℤ) (currentHour : ℕ) (accuracyDraw : ℚ)
    (conditions : List TrafficCondition) :
    (TrafficService.generateRealTimePredictions now currentHour accuracyDraw
        conditions).predictions.length = 12
    ∧ (TrafficService.generateRealTimePredictions now currentHour accuracyDraw
        conditions).predictions
      = (List.range 12).map (specForecastEntry currentHour conditions)
    ∧ (∀ hr, hr < 24 →
        TrafficService.getHourlyTrafficFactor 3
            ≤ TrafficService.getHourlyTrafficFactor hr
          ∧ TrafficService.getHourlyTrafficFactor hr
            ≤ TrafficService.getHourlyTrafficFactor 17)
    ∧ TrafficService.getHourlyTrafficFactor 3 = 0.1
    ∧ TrafficService.getHourlyTrafficFactor 17 = 1.3 := by
  have hsum : ∀ cs : List TrafficCondition,
      cs.foldl (fun sum condition =>
        sum + TrafficService.severityValue condition.severity) 0
      = (cs.map (fun c => TrafficService.severityValue c.severity)).sum := by
    intro cs
    rw [List.sum_eq_foldl, List.foldl_map]
  refine ⟨by simp [TrafficService.generateRealTimePredictions], ?_, ?_, rfl, rfl⟩
  · simp only [TrafficService.generateRealTimePredictions]
    apply List.map_congr_left
    intro i _
    simp only [specForecastEntry, TrafficService.calculateCurrentCongestionLevel,
      hsum]
  · intro hr h
    interval_cases hr <;>
      norm_num [TrafficService.getHourlyTrafficFactor]

/-- C7: every batch the hour-of-day simulation generates has between 2 and 4
conditions, each with a `simulation-`-prefixed identifier and confidence
exactly 70; at an hour in [7, 9] every condition has severity moderate or
high and speed in [15, 35]; at hour 23 (night band) every condition has
severity low and speed in [45, 65]. -/
theorem C7_simulation_bands (currentHour : ℕ) (now : ℤ) (cityName : String)
    (positions : ℕ → ℚ × ℚ) (geo : ℕ → Option String) (numDraw : ℚ)
    (draws : ℕ → SimDraws)
    (hnum : 0 ≤ numDraw ∧ numDraw < 1)
    (hdraws : ∀ i, (draws i).valid) :
    (2 ≤ (TrafficService.generateLocationAwareSimulation currentHour now
          cityName positions geo numDraw draws).length
      ∧ (TrafficService.generateLocationAwareSimulation currentHour now
          cityName positions geo numDraw draws).length ≤ 4)
    ∧ (∀ c ∈ TrafficService.generateLocationAwareSimulation currentHour now
          cityName positions geo numDraw draws,
        (∃ s, c.id = "simulation-" ++ s) ∧ c.confidence = 70)
    ∧ (7 ≤ currentHour → currentHour ≤ 9 →
        ∀ c ∈ TrafficService.generateLocationAwareSimulation currentHour now
            cityName positions geo numDraw draws,
          (c.severity = .moderate ∨ c.severity = .high)
            ∧ 15 ≤ c.speed ∧ c.speed ≤ 35)
    ∧ (currentHour = 23 →
        ∀ c ∈ TrafficService.generateLocationAwareSimulation currentHour now
            cityName positions geo numDraw draws,
          c.severity = .low ∧ 45 ≤ c.speed ∧ c.speed ≤ 65) := by
  have hlen : (TrafficService.generateLocationAwareSimulation currentHour now
      cityName positions geo numDraw draws).length
      = (Int.floor (numDraw * 3)).toNat + 2 := by
    simp [TrafficService.generateLocationAwareSimulation]
  have hfl0 : 0 ≤ Int.floor (numDraw * 3) := by
    rw [Int.floor_nonneg]
    nlinarith [hnum.1]
  have hfl2 : Int.floor (numDraw * 3) < 3 := by
    rw [Int.floor_lt]
    push_cast
    nlinarith [hnum.2]
  have hspeed : ∀ (r : ℚ) (k : ℤ) (b : ℤ), 0 ≤ r → r < 1 → 0 < k →
      (b : ℚ) ≤ ((Int.floor (r * (k : ℚ)) + b : ℤ) : ℚ)
        ∧ ((Int.floor (r * (k : ℚ)) + b : ℤ) : ℚ) ≤ ((k - 1 + b : ℤ) : ℚ) := by
    intro r k b hr0 hr1 hk
    have h0 : 0 ≤ Int.floor (r * (k : ℚ)) := by
      rw [Int.floor_nonneg]
      positivity
    have h1 : Int.floor (r * (k : ℚ)) < k := by
      rw [Int.floor_lt]
      have : r * (k : ℚ) < 1 * (k : ℚ) := by
        apply mul_lt_mul_of_pos_right hr1
        exact_mod_cast hk
      simpa using this
    constructor
    · push_cast
      have : (0 : ℚ) ≤ (Int.floor (r * (k : ℚ)) : ℚ) := by exact_mod_cast h0
      linarith
    · push_cast
      have : ((Int.floor (r * (k : ℚ)) : ℚ)) ≤ ((k : ℚ) - 1) := by
        have := Int.lt_iff_add_one_le.mp h1
        exact_mod_cast by linarith [this]
      linarith
  refine ⟨⟨?_, ?_⟩, ?_, ?_, ?_⟩
  · rw [hlen]; omega
  · rw [hlen]
    have : (Int.floor (numDraw * 3)).toNat ≤ 2 := by omega
    omega
  · intro c hc
    simp only [TrafficService.generateLocationAwareSimulation, List.mem_map] at hc
    obtain ⟨i, _, rfl⟩ := hc
    exact ⟨⟨toString now ++ "-" ++ toString i, rfl⟩, rfl⟩
  · intro h7 h9 c hc
    simp only [TrafficService.generateLocationAwareSimulation, List.mem_map] at hc
    obtain ⟨i, _, rfl⟩ := hc
    have hv := hdraws i
    obtain ⟨_, _, hs0, hs1, _⟩ := hv
    simp only [TrafficService.simulatedCondition, if_pos (And.intro h7 h9)]
    refine ⟨?_, ?_⟩
    · by_cases hsev : (draws i).rSev > 0.5 <;> simp [hsev]
    · have := hspeed (draws i).rSpeed 20 15 hs0 hs1 (by norm_num)
      constructor
      · have h := this.1
        push_cast at h ⊢
        linarith
      · have h := this.2
        push_cast at h ⊢
        linarith
  · intro h23 c hc
    subst h23
    simp only [TrafficService.generateLocationAwareSimulation, List.mem_map] at hc
    obtain ⟨i, _, rfl⟩ := hc
    have hv := hdraws i
    obtain ⟨_, _, hs0, hs1, _⟩ := hv
    have hnot1 : ¬ (7 ≤ 23 ∧ 23 ≤ 9) := by omega
    have hnot2 : ¬ (17 ≤ 23 ∧ 23 ≤ 19) := by omega
    have hyes : (22 ≤ 23 ∨ 23 ≤ 5) := by omega
    simp only [TrafficService.simulatedCondition, if_neg hnot1, if_neg hnot2,
      if_pos hyes]
    refine ⟨by trivial, ?_⟩
    have := hspeed (draws i).rSpeed 20 45 hs0 hs1 (by norm_num)
    constructor
    · have h := this.1
      push_cast at h ⊢
      linarith
    · have h := this.2
      push_cast at h ⊢
      linarith

/-- Witness for C7 at hour 8 with all draws one half. -/
theorem C7_simulation_bands_witness :
    ((0 : ℚ) ≤ 1/2 ∧ (1/2 : ℚ) < 1)
    ∧ (∀ i : ℕ, ((fun _ => demoDraws) i).valid)
    ∧ (2 ≤ (TrafficService.generateLocationAwareSimulation 8 1700000000000
          "Austin" (fun _ => (30, -97)) (fun _ => none) (1/2)
          (fun _ => demoDraws)).length
        ∧ (TrafficService.generateLocationAwareSimulation 8 1700000000000
          "Austin" (fun _ => (30, -97)) (fun _ => none) (1/2)
          (fun _ => demoDraws)).length ≤ 4) := by
  have hnum : (0 : ℚ) ≤ 1/2 ∧ (1/2 : ℚ) < 1 := by norm_num
  have hdraws : ∀ i : ℕ, ((fun _ => demoDraws) i).valid := by
    intro i
    refine ⟨by norm_num [demoDraws], by norm_num [demoDraws],
      by norm_num [demoDraws], by norm_num [demoDraws],
      by norm_num [demoDraws], by norm_num [demoDraws],
      by norm_num [demoDraws], by norm_num [demoDraws]⟩
  exact ⟨hnum, hdraws,
    (C7_simulation_bands 8 1700000000000 "Austin" (fun _ => (30, -97))
      (fun _ => none) (1/2) (fun _ => demoDraws) hnum hdraws).1⟩

/-- Entries of an `enumFrom` all carry indices at least the start, so a
filter dropping an index below the start keeps everything. -/
lemma enumFrom_keep_all {α : Type} (l : List α) :
    ∀ n k : ℕ, k < n →
      ((List.enumFrom n l).filter (fun p => p.1 != k)).map Prod.snd = l := by
  induction l with
  | nil =>
    intro n k _
    rfl
  | cons a t ih =>
    intro n k hk
    rw [List.enumFrom_cons, List.filter_cons]
    have hb : (((n, a) : ℕ × α).1 != k) = true := by
      simp only [bne_iff_ne]
      omega
    rw [if_pos hb, List.map_cons, ih (n + 1) k (by omega)]

/-- Filtering index `n + i` out of `enumFrom n` erases exactly position `i`. -/
lemma enumFrom_filter_eraseIdx {α : Type} (l : List α) :
    ∀ n i : ℕ,
      ((List.enumFrom n l).filter (fun p => p.1 != (n + i))).map Prod.snd
        = l.eraseIdx i := by
  induction l with
  | nil =>
    intro n i
    rfl
  | cons a t ih =>
    intro n i
    rw [List.enumFrom_cons, List.filter_cons]
    cases i with
    | zero =>
      have hb : (((n, a) : ℕ × α).1 != (n + 0)) = false := by
        simp
      rw [hb]
      simp only [Bool.false_eq_true, if_false, List.eraseIdx_cons_zero]
      exact enumFrom_keep_all t (n + 1) (n + 0) (by omega)
    | succ j =>
      have hb : (((n, a) : ℕ × α).1 != (n + (j + 1))) = true := by
        simp only [bne_iff_ne]
        omega
      rw [if_pos hb, List.map_cons, List.eraseIdx_cons_succ]
      have harith : n + (j + 1) = (n + 1) + j := by omega
      rw [harith, ih (n + 1) j]

/-- The index-dropping JS filter is `List.eraseIdx`. -/
lemma exceptIdx_eq_eraseIdx {α : Type} (l : List α) (i : ℕ) :
    exceptIdx l i = l.eraseIdx i := by
  unfold exceptIdx
  have henum : l.enum = List.enumFrom 0 l := rfl
  have h := enumFrom_filter_eraseIdx l 0 i
  rw [henum]
  simpa using h

/-- `map` commutes with `eraseIdx`. -/
lemma map_eraseIdx_comm {α β : Type} (f : α → β) (l : List α) :
    ∀ i : ℕ, (l.eraseIdx i).map f = (l.map f).eraseIdx i := by
  induction l with
  | nil =>
    intro i
    rfl
  | cons a t ih =>
    intro i
    cases i with
    | zero => rfl
    | succ j =>
      simp only [List.eraseIdx_cons_succ, List.map_cons]
      rw [ih j]

/-- The fastest-route reduction computes the running minimum of the
with-traffic durations. -/
lemma foldl_pick_dwt (t : List RouteResult) :
    ∀ h : RouteResult,
      (t.foldl
          (fun fastest route =>
            if route.durationWithTraffic < fastest.durationWithTraffic then route
            else fastest)
          h).durationWithTraffic
        = t.foldl (fun m r => min m r.durationWithTraffic)
            h.durationWithTraffic := by
  induction t with
  | nil =>
    intro h
    rfl
  | cons a t ih =>
    intro h
    simp only [List.foldl_cons]
    rw [ih]
    congr 1
    by_cases hc : a.durationWithTraffic < h.durationWithTraffic
    · rw [if_pos hc, min_eq_right (le_of_lt hc)]
    · rw [if_neg hc, min_eq_left (not_lt.mp hc)]

/-- On a nonempty list, `pickFastest` succeeds and its element attains the
minimum with-traffic duration. -/
lemma pickFastest_min (l : List RouteResult) (hl : l ≠ []) :
    ∃ f, RouteService.pickFastest l = some f
      ∧ listMinQ (l.map RouteResult.durationWithTraffic)
          = some f.durationWithTraffic := by
  cases l with
  | nil => exact absurd rfl hl
  | cons a t =>
    refine ⟨_, rfl, ?_⟩
    simp only [listMinQ, List.map_cons]
    congr 1
    rw [List.foldl_map]
    exact (foldl_pick_dwt t a).symm

/-- A fold of `min` over integer-valued rationals is integer-valued. -/
lemma foldl_min_intCast :
    ∀ (xs : List ℚ) (x : ℚ), (∃ z : ℤ, x = (z : ℚ)) →
      (∀ y ∈ xs, ∃ z : ℤ, y = (z : ℚ)) →
      ∃ z : ℤ, xs.foldl min x = (z : ℚ) := by
  intro xs
  induction xs with
  | nil =>
    intro x hx _
    simpa using hx
  | cons y ys ih =>
    intro x hx hys
    simp only [List.foldl_cons]
    apply ih
    · obtain ⟨zx, rfl⟩ := hx
      obtain ⟨zy, rfl⟩ := hys y (by simp)
      exact ⟨min zx zy, Int.cast_min.symm⟩
    · intro w hw
      exact hys w (by simp [hw])

/-- `listMinQ` of an integer-valued list is integer-valued. -/
lemma listMinQ_intCast (qs : List ℚ)
    (hqs : ∀ x ∈ qs, ∃ z : ℤ, x = (z : ℚ)) :
    ∀ m, listMinQ qs = some m → ∃ z : ℤ, m = (z : ℚ) := by
  cases qs with
  | nil =>
    intro m h
    simp [listMinQ] at h
  | cons x xs =>
    intro m h
    simp only [listMinQ, Option.some.injEq] at h
    rw [← h]
    exact foldl_min_intCast xs x (hqs x (by simp))
      (fun y hy => hqs y (by simp [hy]))

/-- Every with-traffic duration a route conversion produces is an integer
number of minutes (`Math.round` of seconds over 60). -/
lemma mkRouteResult_dwt_int (i : ℕ) (g : GRoute) :
    ∃ z : ℤ, (RouteService.mkRouteResult i g).durationWithTraffic = (z : ℚ) := by
  cases h : g.leg.durationInTrafficValue with
  | none =>
    exact ⟨round (g.leg.durationValue / 60),
      by simp [RouteService.mkRouteResult, h]⟩
  | some v =>
    exact ⟨round (v / 60), by simp [RouteService.mkRouteResult, h]⟩

/-- Option-valued indexing into a `mapIdx`. -/
lemma getElem?_mapIdx {α β : Type} (f : ℕ → α → β) (l : List α) (i : ℕ) :
    (List.mapIdx f l)[i]? = l[i]?.map (f i) := by
  rw [List.mapIdx_eq_enum_map, List.getElem?_map, List.getElem?_enum,
    Option.map_map]
  rfl

/-- The savings back-fill pass does not change any with-traffic duration. -/
lemma processRoutes_map_dwt (groutes : List GRoute) :
    (RouteService.processRoutes groutes).map RouteResult.durationWithTraffic
      = (List.mapIdx RouteService.mkRouteResult groutes).map
          RouteResult.durationWithTraffic := by
  simp only [RouteService.processRoutes]
  rw [List.mapIdx_eq_enum_map, List.map_map]
  conv_rhs =>
    rw [← List.enum_map_snd (List.mapIdx RouteService.mkRouteResult groutes),
      List.map_map]
  apply List.map_congr_left
  intro p _
  simp only [Function.comp, Function.uncurry]
  by_cases h : p.2.isRecommended <;> simp [h]

/-- C5: in every processed batch, a route is recommended iff it is the first
alternative and its own severity is not severe; consequently only index 0 can
ever be recommended (at most one recommended route, and none when the first
alternative is severe). -/
theorem C5_first_route_recommended (groutes : List GRoute) (i : ℕ)
    (r : RouteResult)
    (hr : (RouteService.processRoutes groutes)[i]? = some r) :
    (r.isRecommended = true ↔ (i = 0 ∧ r.trafficLevel ≠ Severity.severe))
    ∧ (∀ (j : ℕ) (q : RouteResult),
        (RouteService.processRoutes groutes)[j]? = some q →
        q.isRecommended = true → j = 0) := by
  have hstep : ∀ (j : ℕ) (q : RouteResult),
      (RouteService.processRoutes groutes)[j]? = some q →
      ∃ g, groutes[j]? = some g
        ∧ q.isRecommended = (RouteService.mkRouteResult j g).isRecommended
        ∧ q.trafficLevel = (RouteService.mkRouteResult j g).trafficLevel := by
    intro j q hq
    simp only [RouteService.processRoutes] at hq
    rw [getElem?_mapIdx, getElem?_mapIdx] at hq
    cases hg : groutes[j]? with
    | none =>
      rw [hg] at hq
      simp at hq
    | some g =>
      rw [hg] at hq
      simp only [Option.map_some'] at hq
      have hq2 := Option.some.inj hq
      refine ⟨g, rfl, ?_, ?_⟩
      · rw [← hq2]
        by_cases h : (RouteService.mkRouteResult j g).isRecommended <;> simp [h]
      · rw [← hq2]
        by_cases h : (RouteService.mkRouteResult j g).isRecommended <;> simp [h]
  constructor
  · obtain ⟨g, hg, hrec, hlvl⟩ := hstep i r hr
    rw [hrec, hlvl]
    simp only [RouteService.mkRouteResult]
    simp [Bool.and_eq_true]
  · intro j q hq hrecq
    obtain ⟨g, hg2, hrec2, _⟩ := hstep j q hq
    rw [hrec2] at hrecq
    simp only [RouteService.mkRouteResult, Bool.and_eq_true, beq_iff_eq] at hrecq
    exact hrecq.1

/-- Witness for C5 at the first route of the demo batch. -/
theorem C5_first_route_recommended_witness :
    (RouteService.processRoutes demoGRoutes)[0]? = some demoFirstRoute
    ∧ (demoFirstRoute.isRecommended = true ↔
        (0 = 0 ∧ demoFirstRoute.trafficLevel ≠ Severity.severe)) :=
  ⟨rfl, (C5_first_route_recommended demoGRoutes 0 demoFirstRoute rfl).1⟩

/-- C3: in every processed batch, a non-recommended route has no savings
value, and the recommended route's savings is the minimum with-traffic
duration among the other routes minus its own with-traffic duration when that
difference is positive, and undefined otherwise (including the single-route
batch); for the demo batch with with-traffic durations [30, 25, 40] and index
0 recommended, min(25, 40) - 30 = -5 is not positive, so every savings field
is undefined. -/
theorem C3_savings_spec (groutes : List GRoute) (i : ℕ) (r : RouteResult)
    (hr : (RouteService.processRoutes groutes)[i]? = some r) :
    (r.isRecommended = false → r.savings = none)
    ∧ (r.isRecommended = true →
        r.savings =
          (listMinQ ((exceptIdx (RouteService.processRoutes groutes) i).map
              RouteResult.durationWithTraffic)).bind
            (fun m =>
              if 0 < m - r.durationWithTraffic
              then some (m - r.durationWithTraffic) else none))
    ∧ ((RouteService.processRoutes demoGRoutes).map RouteResult.isRecommended
        = [true, false, false])
    ∧ ((RouteService.processRoutes demoGRoutes).map RouteResult.savings
        = [none, none, none]) := by
  have hdemo1 : (RouteService.processRoutes demoGRoutes).map
      RouteResult.isRecommended = [true, false, false] := by
    simp only [RouteService.processRoutes, demoGRoutes, List.mapIdx_cons,
      List.mapIdx_nil]
    norm_num [RouteService.mkRouteResult, RouteService.calculateTrafficLevel,
      round_eq]
    simp
  have hdemo2 : (RouteService.processRoutes demoGRoutes).map
      RouteResult.savings = [none, none, none] := by
    simp only [RouteService.processRoutes, demoGRoutes, List.mapIdx_cons,
      List.mapIdx_nil]
    norm_num [RouteService.mkRouteResult, RouteService.calculateTrafficLevel,
      round_eq]
    simp [RouteService.calculateSavings, exceptIdx_eq_eraseIdx,
      RouteService.pickFastest]
    norm_num
  have hmain : (r.isRecommended = false → r.savings = none)
      ∧ (r.isRecommended = true →
          r.savings =
            (listMinQ ((exceptIdx (RouteService.processRoutes groutes) i).map
                RouteResult.durationWithTraffic)).bind
              (fun m =>
                if 0 < m - r.durationWithTraffic
                then some (m - r.durationWithTraffic) else none)) := by
    simp only [RouteService.processRoutes] at hr
    rw [getElem?_mapIdx, getElem?_mapIdx] at hr
    cases hg : groutes[i]? with
    | none =>
      rw [hg] at hr
      simp at hr
    | some g =>
      rw [hg] at hr
      simp only [Option.map_some'] at hr
      have hq := Option.some.inj hr
      have hbase_i : (List.mapIdx RouteService.mkRouteResult groutes)[i]?
          = some (RouteService.mkRouteResult i g) := by
        rw [getElem?_mapIdx, hg, Option.map_some']
      have hi : i < groutes.length := by
        by_contra hcon
        push_neg at hcon
        rw [List.getElem?_eq_none hcon] at hg
        exact Option.noConfusion hg
      have hmap : (exceptIdx (RouteService.processRoutes groutes) i).map
            RouteResult.durationWithTraffic
          = ((List.mapIdx RouteService.mkRouteResult groutes).eraseIdx i).map
              RouteResult.durationWithTraffic := by
        rw [exceptIdx_eq_eraseIdx, map_eraseIdx_comm, processRoutes_map_dwt,
          ← map_eraseIdx_comm]
      by_cases hb : (RouteService.mkRouteResult i g).isRecommended
      · have hrsav : r.savings = RouteService.calculateSavings
            (List.mapIdx RouteService.mkRouteResult groutes) i := by
          rw [← hq]
          simp [hb]
        have hrrec : r.isRecommended = true := by
          rw [← hq]
          simp [hb]
        have hrdwt : r.durationWithTraffic
            = (RouteService.mkRouteResult i g).durationWithTraffic := by
          rw [← hq]
          simp [hb]
        refine ⟨fun hfalse => absurd (hrrec ▸ hfalse) (by simp), fun _ => ?_⟩
        rw [hrsav, hmap]
        simp only [hrdwt]
        by_cases hlen : (List.mapIdx RouteService.mkRouteResult groutes).length
            ≤ 1
        · have hlen1 : groutes.length = 1 := by
            have := List.length_mapIdx (f := RouteService.mkRouteResult)
              (l := groutes)
            omega
          have herase : (List.mapIdx RouteService.mkRouteResult
              groutes).eraseIdx i = [] := by
            apply List.length_eq_zero.mp
            rw [List.length_eraseIdx]
            have := List.length_mapIdx (f := RouteService.mkRouteResult)
              (l := groutes)
            split_ifs <;> omega
          rw [herase]
          simp [RouteService.calculateSavings, hlen, listMinQ]
          intro hcon
          exact absurd hcon (by omega)
        · have hne : (List.mapIdx RouteService.mkRouteResult groutes).eraseIdx i
              ≠ [] := by
            intro hnil
            have hlen0 := congrArg List.length hnil
            rw [List.length_eraseIdx] at hlen0
            simp only [List.length_nil] at hlen0
            split_ifs at hlen0 <;> omega
          obtain ⟨f, hpf, hminf⟩ := pickFastest_min _ hne
          rw [hminf]
          obtain ⟨zb, hzb⟩ := mkRouteResult_dwt_int i g
          have hints : ∀ x ∈ ((List.mapIdx RouteService.mkRouteResult
                groutes).eraseIdx i).map RouteResult.durationWithTraffic,
              ∃ z : ℤ, x = (z : ℚ) := by
            intro x hx
            obtain ⟨rr, hrr, rfl⟩ := List.mem_map.mp hx
            have hrr2 : rr ∈ List.mapIdx RouteService.mkRouteResult groutes :=
              List.eraseIdx_subset _ _ hrr
            rw [List.mapIdx_eq_enum_map] at hrr2
            obtain ⟨p, _, rfl⟩ := List.mem_map.mp hrr2
            exact mkRouteResult_dwt_int p.1 p.2
          obtain ⟨zf, hzf⟩ := listMinQ_intCast _ hints
            f.durationWithTraffic hminf
          have hround : ((round (f.durationWithTraffic
                - (RouteService.mkRouteResult i g).durationWithTraffic) : ℤ)
                : ℚ)
              = f.durationWithTraffic
                - (RouteService.mkRouteResult i g).durationWithTraffic := by
            rw [hzf, hzb]
            have hcast : (zf : ℚ) - (zb : ℚ) = ((zf - zb : ℤ) : ℚ) := by
              push_cast
              ring
            rw [hcast, round_intCast]
          have hnotle : ¬ ((List.mapIdx RouteService.mkRouteResult
              groutes).length ≤ 1) := by omega
          simp only [RouteService.calculateSavings, if_neg hnotle, hbase_i,
            exceptIdx_eq_eraseIdx, hpf, Option.some_bind]
          split_ifs with hpos
          · rw [hround]
          · rfl
      · have hrq : r = RouteService.mkRouteResult i g := by
          rw [← hq]
          simp [hb]
        constructor
        · intro _
          rw [hrq]
          rfl
        · intro htrue
          rw [hrq] at htrue
          exact absurd htrue (by simpa using hb)
  exact ⟨hmain.1, hmain.2, hdemo1, hdemo2⟩

/-- Witness for C3 at the recommended first route of the demo batch. -/
theorem C3_savings_spec_witness :
    (RouteService.processRoutes demoGRoutes)[0]? = some demoFirstRoute
    ∧ (demoFirstRoute.isRecommended = true →
        demoFirstRoute.savings =
          (listMinQ ((exceptIdx (RouteService.processRoutes demoGRoutes) 0).map
              RouteResult.durationWithTraffic)).bind
            (fun m =>
              if 0 < m - demoFirstRoute.durationWithTraffic
              then some (m - demoFirstRoute.durationWithTraffic) else none)) :=
  ⟨rfl, (C3_savings_spec demoGRoutes 0 demoFirstRoute rfl).2.1⟩
